import Mathlib

/-!
# Chat-App server: registry, message delivery and read receipts

A shallow embedding of `server/index.js` (the socket.io handlers) and
`server/routes/messages.js` (the Express router), with `server/models/Message.js`
as the data model.

Conventions of the embedding:

* a JavaScript string is the list of its UTF-16 code units, so that the default
  `Array.prototype.sort` order (code-unit lexicographic) is the real one;
* the `onlineUsers` `Map` is an insertion-ordered association list;
* the `messages` collection is a list of documents;
* every `await` on the database that may reject carries a Boolean saying whether
  it resolved, so that the `try`/`catch` of each handler is kept;
* `new Date()` and the `_id` Mongoose generates are inputs of the handler;
* Mongoose is the one in which `doc.populate()` returns a promise that can reject
  (version 6 or later); identities are ObjectId strings in their canonical
  spelling, 24 lower-case hexadecimal digits;
* each handler runs as one step over the state (no interleaving at `await`).
-/

namespace ChatApp

/-! ## JavaScript strings, `sort` and `join` -/

/-- A JavaScript string: the sequence of its UTF-16 code units. -/
abbrev JsString := List Nat

/-- The `<` of JavaScript on two strings: the shorter one is smaller when it is a
prefix of the other, otherwise the first differing code unit decides. -/
def jsStringLt : JsString → JsString → Bool
  | [], [] => false
  | [], _ :: _ => true
  | _ :: _, [] => false
  | x :: xs, y :: ys =>
    if x < y then true else if y < x then false else jsStringLt xs ys

/-- Stable insertion of `x` into a sorted array, as the default comparator orders
it: `x` goes after every element that is not greater than it. -/
def sortInsert (x : JsString) : List JsString → List JsString
  | [] => [x]
  | y :: ys => if jsStringLt x y then x :: y :: ys else y :: sortInsert x ys

/-- `Array.prototype.sort()` without a comparator on an array of strings: a stable
sort by code units. -/
def sort (xs : List JsString) : List JsString :=
  xs.foldl (fun acc x => sortInsert x acc) []

/-- `Array.prototype.join(sep)`. -/
def join (sep : JsString) : List JsString → JsString
  | [] => []
  | [x] => x
  | x :: y :: rest => x ++ sep ++ join sep (y :: rest)

/-- The string `'_'`. -/
def underscore : JsString := [95]

/-- `[a, b].sort().join('_')`, the expression both send paths use for `chatId`. -/
def chatId (a b : JsString) : JsString :=
  join underscore (sort [a, b])

/-- The string `'text'`, the default of `type`. -/
def textType : JsString := [116, 101, 120, 116]

/-- The string `'online'`. -/
def online : JsString := [111, 110, 108, 105, 110, 101]

/-- The string `'offline'`. -/
def offline : JsString := [111, 102, 102, 108, 105, 110, 101]

/-! ## Data model (`models/Message.js`) -/

/-- A document of the `Message` collection. `isRead` defaults to `false` and
`readAt` to `null`; `createdAt` and `updatedAt` come from `timestamps: true`. -/
structure Message where
  _id : JsString
  chatId : JsString
  senderId : JsString
  receiverId : JsString
  content : JsString
  isRead : Bool := false
  readAt : Option Nat := none
  type : JsString := textType
  metadata : List (JsString × JsString) := []
  clientId : Option JsString := none
  createdAt : Nat
  updatedAt : Nat
  deriving DecidableEq, Repr

/-- Modelled from the spec: the `User` model (`models/User.js`) is not among the
sources. A user record carries the identity, the public profile fields `name` and
`avatar` that `populate` selects, and the mutable `status` and `lastSeen`. -/
structure User where
  _id : JsString
  name : JsString
  avatar : JsString
  status : JsString
  lastSeen : Nat
  deriving DecidableEq, Repr

/-- What `populate(path, 'name avatar')` puts in place of an identity. -/
structure Profile where
  _id : JsString
  name : JsString
  avatar : JsString
  deriving DecidableEq, Repr

/-- A message after `populate('senderId', ...)` and `populate('receiverId', ...)`:
the document together with the two profiles (`null` when no such user exists). -/
structure PopulatedMessage where
  doc : Message
  sender : Option Profile
  receiver : Option Profile
  deriving DecidableEq, Repr

/-! ## The `onlineUsers` map -/

/-- A JavaScript `Map` from user identity to socket id, in insertion order. -/
abbrev OnlineUsers := List (JsString × JsString)

/-- `Map.prototype.get`. -/
def mapGet : OnlineUsers → JsString → Option JsString
  | [], _ => none
  | (k, v) :: rest, key => if k = key then some v else mapGet rest key

/-- `Map.prototype.set`: an existing key keeps its place and takes the new value,
a new key goes last. -/
def mapSet : OnlineUsers → JsString → JsString → OnlineUsers
  | [], key, value => [(key, value)]
  | (k, v) :: rest, key, value =>
    if k = key then (k, value) :: rest else (k, v) :: mapSet rest key value

/-- `Map.prototype.delete`: no entry with that key is left. -/
def mapDelete : OnlineUsers → JsString → OnlineUsers
  | [], _ => []
  | (k, v) :: rest, key =>
    if k = key then mapDelete rest key else (k, v) :: mapDelete rest key

/-- `Array.from(map.keys())`. -/
def mapKeys (m : OnlineUsers) : List JsString :=
  m.map Prod.fst

/-! ## Server state and observable effects -/

/-- The state the handlers share: the registry and the two collections. -/
structure State where
  onlineUsers : OnlineUsers
  messages : List Message
  users : List User
  deriving DecidableEq, Repr

/-- An authenticated socket: its own id and the identity the handshake token
decoded to (`socket.userId`). -/
structure Socket where
  id : JsString
  userId : JsString
  deriving DecidableEq, Repr

/-- The events the server emits, with their payloads. -/
inductive Event where
  | privateMessage (messageObj : PopulatedMessage)
  | messageSent (message : PopulatedMessage)
  | messageError (error : String)
  | messageRead (messageId : JsString) (readAt : Option Nat)
  | userStatus (userId : JsString) (status : JsString)
  | onlineUsers (onlineUserIds : List JsString)
  deriving DecidableEq, Repr

/-- Where an emission goes: `socket.emit` reaches that one socket, `io.to(r).emit`
the sockets in room `r` (a socket is in the room named by its own id and in no
other, since no handler calls `join`), `io.emit` every connected socket. -/
inductive Target where
  | socket (id : JsString)
  | room (name : JsString)
  | all
  deriving DecidableEq, Repr

/-- One `emit` call. -/
structure Emission where
  target : Target
  event : Event
  deriving DecidableEq, Repr

/-- What a socket handler leaves behind: the new state, the emissions in order,
and the `console.error` lines. -/
structure Outcome where
  state : State
  emitted : List Emission
  errors : List String
  deriving DecidableEq, Repr

/-! ## Database operations used by the handlers -/

/-- The projection `populate` performs on one identity. -/
def populatePath (users : List User) (id : JsString) : Option Profile :=
  (users.find? (fun u => u._id = id)).map (fun u => ⟨u._id, u.name, u.avatar⟩)

/-- Both `populate` calls on a message. -/
def populate (users : List User) (m : Message) : PopulatedMessage :=
  ⟨m, populatePath users m.senderId, populatePath users m.receiverId⟩

/-- `User.findByIdAndUpdate(userId, {status, lastSeen})`. -/
def userFindByIdAndUpdate (users : List User) (userId status : JsString) (now : Nat) :
    List User :=
  match users with
  | [] => []
  | u :: rest =>
    if u._id = userId then { u with status := status, lastSeen := now } :: rest
    else u :: userFindByIdAndUpdate rest userId status now

/-- `Message.findById(id)`. -/
def findById (messages : List Message) (id : JsString) : Option Message :=
  messages.find? (fun m => m._id = id)

/-- `doc.save()` on a document that is already stored: the stored document with
that `_id` takes the new field values. -/
def saveExisting : List Message → Message → List Message
  | [], _ => []
  | m :: rest, doc => if m._id = doc._id then doc :: rest else m :: saveExisting rest doc

/-- `Message.updateMany(filter, {isRead: true, readAt: now})` with the filter
`{senderId, receiverId, isRead: false}`: the new collection. -/
def updateMany (messages : List Message) (senderId receiverId : JsString) (now : Nat) :
    List Message :=
  messages.map (fun m =>
    if m.senderId = senderId ∧ m.receiverId = receiverId ∧ m.isRead = false then
      { m with isRead := true, readAt := some now, updatedAt := now }
    else m)

/-- The object `updateMany` resolves to. In the Mongoose whose `doc.populate()`
returns a promise it is the driver's update result, with `matchedCount` and
`modifiedCount`; it has no property `nModified`. -/
structure UpdateResult where
  acknowledged : Bool
  matchedCount : Nat
  modifiedCount : Nat
  deriving DecidableEq, Repr

/-- The result of that `updateMany`: every document the filter matches has
`isRead = false` and is changed by the update, so the two counts agree. -/
def updateManyResult (messages : List Message) (senderId receiverId : JsString) :
    UpdateResult :=
  let n := (messages.filter (fun m =>
    m.senderId = senderId ∧ m.receiverId = receiverId ∧ m.isRead = false)).length
  { acknowledged := true, matchedCount := n, modifiedCount := n }

/-- The expression `result.nModified`: the read of a property the result object
does not have, which is `undefined` (`none`). -/
def UpdateResult.nModified (_result : UpdateResult) : Option Nat :=
  none

/-- `Message.countDocuments({receiverId, isRead: false})`. -/
def countDocuments (messages : List Message) (receiverId : JsString) : Nat :=
  (messages.filter (fun m => m.receiverId = receiverId ∧ m.isRead = false)).length

/-- `Message.findOneAndUpdate({_id, receiverId, isRead: false},
{isRead: true, readAt: now}, {new: true})`: the new collection and the updated
document, or `null` when no document matches. -/
def findOneAndUpdate : List Message → JsString → JsString → Nat →
    List Message × Option Message
  | [], _, _, _ => ([], none)
  | m :: rest, id, receiverId, now =>
    if m._id = id ∧ m.receiverId = receiverId ∧ m.isRead = false then
      let m' := { m with isRead := true, readAt := some now, updatedAt := now }
      (m' :: rest, some m')
    else
      let r := findOneAndUpdate rest id receiverId now
      (m :: r.1, r.2)

/-! ## Socket handlers (`index.js`) -/

/-- `broadcastUserStatus(userId, status)`: the user record is updated, then the
`userStatus` event goes to every client; both sit in one `try`, so when the update
rejects (`updateOk = false`) the `catch` logs and nothing is emitted. -/
def broadcastUserStatus (userId status : JsString) (now : Nat) (updateOk : Bool)
    (s : State) : Outcome :=
  if updateOk then
    { state := { s with users := userFindByIdAndUpdate s.users userId status now }
      emitted := [⟨Target.all, Event.userStatus userId status⟩]
      errors := [] }
  else
    { state := s, emitted := [], errors := ["Error broadcasting user status:"] }

/-- `io.on("connection", ...)` up to the registration of the per-socket handlers:
the socket is put in `onlineUsers` under its identity, the status is broadcast,
and the socket is sent the keys of the map. -/
def onConnection (socket : Socket) (now : Nat) (updateOk : Bool) (s : State) : Outcome :=
  let s1 := { s with onlineUsers := mapSet s.onlineUsers socket.userId socket.id }
  let b := broadcastUserStatus socket.userId online now updateOk s1
  { state := b.state
    emitted := b.emitted ++
      [⟨Target.socket socket.id, Event.onlineUsers (mapKeys b.state.onlineUsers)⟩]
    errors := b.errors }

/-- `socket.on("disconnect", ...)`: the entry of the socket's identity is deleted,
whatever socket it holds, and the status is broadcast. -/
def onDisconnect (socket : Socket) (now : Nat) (updateOk : Bool) (s : State) : Outcome :=
  let s1 := { s with onlineUsers := mapDelete s.onlineUsers socket.userId }
  broadcastUserStatus socket.userId offline now updateOk s1

/-- The `data` of a `privateMessage` event; `type` and `metadata` may be absent. -/
structure PrivateMessageData where
  receiverId : JsString
  content : JsString
  type : Option JsString := none
  metadata : Option (List (JsString × JsString)) := none
  deriving DecidableEq, Repr

/-- The document `new Message({...})` builds in the socket send path; `newId` is
the `_id` Mongoose generates and `now` the time of the save. -/
def newSocketMessage (socket : Socket) (data : PrivateMessageData) (newId : JsString)
    (now : Nat) : Message :=
  { _id := newId
    chatId := chatId socket.userId data.receiverId
    senderId := socket.userId
    receiverId := data.receiverId
    content := data.content
    type := data.type.getD textType
    metadata := data.metadata.getD []
    createdAt := now
    updatedAt := now }

/-- `socket.on("privateMessage", ...)`. `saveOk` says whether `message.save()`
resolved and `populateOk` whether the two `populate` calls did; a rejection of
either goes to the `catch`, which emits `messageError` to the calling socket. The
socket id the registry holds is taken as truthy (socket.io ids are not empty). -/
def onPrivateMessage (socket : Socket) (data : PrivateMessageData) (newId : JsString)
    (now : Nat) (saveOk populateOk : Bool) (s : State) : Outcome :=
  let receiverSocketId := mapGet s.onlineUsers data.receiverId
  let message := newSocketMessage socket data newId now
  if saveOk then
    let s1 := { s with messages := s.messages ++ [message] }
    if populateOk then
      let messageObj := populate s1.users message
      let toReceiver :=
        match receiverSocketId with
        | some id => [⟨Target.room id, Event.privateMessage messageObj⟩]
        | none => []
      let senderSocketId := mapGet s1.onlineUsers socket.userId
      let toSender :=
        match senderSocketId with
        | some id => [⟨Target.room id, Event.privateMessage messageObj⟩]
        | none => []
      { state := s1
        emitted := toReceiver ++ toSender ++
          [⟨Target.socket socket.id, Event.messageSent messageObj⟩]
        errors := [] }
    else
      { state := s1
        emitted := [⟨Target.socket socket.id, Event.messageError "Failed to send message"⟩]
        errors := ["Error handling private message:"] }
  else
    { state := s
      emitted := [⟨Target.socket socket.id, Event.messageError "Failed to send message"⟩]
      errors := ["Error handling private message:"] }

/-- `socket.on("messageRead", ...)`. `findOk` and `saveOk` say whether
`Message.findById` and `message.save()` resolved. The guard asks that the message
exists and that its receiver is the socket's identity; it does not look at
`isRead`. -/
def onMessageRead (socket : Socket) (messageId : JsString) (now : Nat)
    (findOk saveOk : Bool) (s : State) : Outcome :=
  if findOk then
    match findById s.messages messageId with
    | some message =>
      if message.receiverId = socket.userId then
        let message' := { message with isRead := true, readAt := some now, updatedAt := now }
        if saveOk then
          let s1 := { s with messages := saveExisting s.messages message' }
          let senderSocketId := mapGet s1.onlineUsers message'.senderId
          { state := s1
            emitted :=
              match senderSocketId with
              | some id => [⟨Target.room id, Event.messageRead message'._id message'.readAt⟩]
              | none => []
            errors := [] }
        else
          { state := s, emitted := [], errors := ["Error handling message read status:"] }
      else
        { state := s, emitted := [], errors := [] }
    | none => { state := s, emitted := [], errors := [] }
  else
    { state := s, emitted := [], errors := ["Error handling message read status:"] }

/-! ## Request handlers (`routes/messages.js`) -/

/-- The JSON bodies the message routes answer with. -/
inductive Body where
  | messages (list : List PopulatedMessage)
  | populated (message : PopulatedMessage)
  | document (message : Message)
  | updated (nModified : Option Nat)
  | count (count : Nat)
  | message (text : String)
  | error (text : String)
  deriving DecidableEq, Repr

/-- A response: status code and body. -/
structure Response where
  status : Nat
  body : Body
  deriving DecidableEq, Repr

/-- What a request handler leaves behind: the new state, the response, the socket
emissions and the `console.error` lines. -/
structure HttpOutcome where
  state : State
  response : Response
  emitted : List Emission
  errors : List String
  deriving DecidableEq, Repr

/-- The filter `{$or: [{senderId: a, receiverId: b}, {senderId: b, receiverId: a}]}`
followed by `.sort({createdAt: 1})` and the two `populate` calls. -/
def findConversation (s : State) (a b : JsString) : List PopulatedMessage :=
  ((s.messages.filter (fun m =>
      (m.senderId = a ∧ m.receiverId = b) ∨ (m.senderId = b ∧ m.receiverId = a))).mergeSort
    (fun x y => decide (x.createdAt ≤ y.createdAt))).map (populate s.users)

/-- `router.get('/:userId')`: fetch, mark the other user's unread messages read,
fetch again. One flag per `await`. -/
def getConversation (userId paramUserId : JsString) (now : Nat)
    (findOk updateOk refetchOk : Bool) (s : State) : HttpOutcome :=
  if findOk then
    if updateOk then
      let s1 := { s with messages := updateMany s.messages paramUserId userId now }
      if refetchOk then
        { state := s1, response := ⟨200, Body.messages (findConversation s1 userId paramUserId)⟩
          emitted := [], errors := [] }
      else
        { state := s1, response := ⟨500, Body.message "Error fetching messages"⟩
          emitted := [], errors := ["Error fetching messages:"] }
    else
      { state := s, response := ⟨500, Body.message "Error fetching messages"⟩
        emitted := [], errors := ["Error fetching messages:"] }
  else
    { state := s, response := ⟨500, Body.message "Error fetching messages"⟩
      emitted := [], errors := ["Error fetching messages:"] }

/-- The body of a send request; `type`, `metadata` and `clientId` may be absent. -/
structure SendBody where
  receiverId : JsString
  content : JsString
  type : Option JsString := none
  metadata : Option (List (JsString × JsString)) := none
  clientId : Option JsString := none
  deriving DecidableEq, Repr

/-- The document `new Message({...})` builds in the request send path;
`clientId || null` keeps a client id only when it is a non-empty string. -/
def newHttpMessage (userId : JsString) (body : SendBody) (newId : JsString) (now : Nat) :
    Message :=
  { _id := newId
    chatId := chatId userId body.receiverId
    senderId := userId
    receiverId := body.receiverId
    content := body.content
    type := body.type.getD textType
    metadata := body.metadata.getD []
    clientId :=
      match body.clientId with
      | some (c :: cs) => some (c :: cs)
      | _ => none
    createdAt := now
    updatedAt := now }

/-- `router.post('/')`: build, save, populate, answer 201 with the message. -/
def postMessage (userId : JsString) (body : SendBody) (newId : JsString) (now : Nat)
    (saveOk populateOk : Bool) (s : State) : HttpOutcome :=
  let message := newHttpMessage userId body newId now
  if saveOk then
    let s1 := { s with messages := s.messages ++ [message] }
    if populateOk then
      { state := s1, response := ⟨201, Body.populated (populate s1.users message)⟩
        emitted := [], errors := [] }
    else
      { state := s1, response := ⟨500, Body.message "Error sending message"⟩
        emitted := [], errors := ["Error sending message:"] }
  else
    { state := s, response := ⟨500, Body.message "Error sending message"⟩
      emitted := [], errors := ["Error sending message:"] }

/-- `router.patch('/read/:userId')`: the bulk mark-read; answers
`{updated: result.nModified}`, whose `updated` is `undefined` (and is left out of
the JSON) since the result has no such property. -/
def patchReadUser (userId paramUserId : JsString) (now : Nat) (updateOk : Bool)
    (s : State) : HttpOutcome :=
  if updateOk then
    { state := { s with messages := updateMany s.messages paramUserId userId now }
      response :=
        ⟨200, Body.updated (updateManyResult s.messages paramUserId userId).nModified⟩
      emitted := [], errors := [] }
  else
    { state := s, response := ⟨500, Body.message "Error marking messages as read"⟩
      emitted := [], errors := ["Error marking messages as read:"] }

/-- `router.get('/unread/count')`. -/
def getUnreadCount (userId : JsString) (countOk : Bool) (s : State) : HttpOutcome :=
  if countOk then
    { state := s, response := ⟨200, Body.count (countDocuments s.messages userId)⟩
      emitted := [], errors := [] }
  else
    { state := s, response := ⟨500, Body.message "Error getting unread count"⟩
      emitted := [], errors := ["Error getting unread count:"] }

/-- `router.patch('/read/:messageId')`: the single mark-read. On success the
`messageRead` event goes to `io.to(message.senderId.toString())`, the room named
by the sender's identity; `onlineUsers` is not in scope of the router. -/
def patchReadMessage (userId paramMessageId : JsString) (now : Nat) (updateOk : Bool)
    (s : State) : HttpOutcome :=
  if updateOk then
    let r := findOneAndUpdate s.messages paramMessageId userId now
    match r.2 with
    | none =>
      { state := s, response := ⟨404, Body.message "Message not found or already read"⟩
        emitted := [], errors := [] }
    | some message =>
      { state := { s with messages := r.1 }
        response := ⟨200, Body.document message⟩
        emitted := [⟨Target.room message.senderId, Event.messageRead message._id message.readAt⟩]
        errors := [] }
  else
    { state := s, response := ⟨500, Body.message "Error marking message as read"⟩
      emitted := [], errors := ["Error marking message as read:"] }

/-- Whether a code unit is a hexadecimal digit: `0`-`9`, `a`-`f` or `A`-`F`. -/
def isHexDigit (c : Nat) : Bool :=
  (decide (48 ≤ c) && decide (c ≤ 57)) || (decide (97 ≤ c) && decide (c ≤ 102)) ||
    (decide (65 ≤ c) && decide (c ≤ 70))

/-- Whether a string is 24 hexadecimal digits, the spelling of an ObjectId that
every version of Mongoose casts. -/
def isObjectIdString (x : JsString) : Bool :=
  decide (x.length = 24) && x.all isHexDigit

/-- The single mark-read handler with the cause of a rejection made explicit.
Mongoose casts the `_id` of the filter to an ObjectId before it queries and
rejects with a `CastError` when the string does not cast, so the awaited
`findOneAndUpdate` resolves only when `req.params.messageId` casts (`casts`, a
property of the Mongoose in use) and the database answers (`dbOk`). -/
def markMessageRead (casts : JsString → Bool) (dbOk : Bool) (userId messageId : JsString)
    (now : Nat) (s : State) : HttpOutcome :=
  patchReadMessage userId messageId now (dbOk && casts messageId) s

/-! ## Route dispatch -/

/-- The HTTP methods the server allows. -/
inductive Method where
  | GET | POST | PUT | DELETE | PATCH | OPTIONS
  deriving DecidableEq, Repr

/-- One segment of a route path: a literal or a `:name` parameter. -/
inductive Segment where
  | literal (text : JsString)
  | param (name : String)
  deriving DecidableEq, Repr

/-- The five handlers of the message router. -/
inductive Handler where
  | getConversation
  | postMessage
  | patchReadUser
  | getUnreadCount
  | patchReadMessage
  deriving DecidableEq, Repr

/-- A registered route. -/
structure Route where
  method : Method
  path : List Segment
  handler : Handler
  deriving DecidableEq, Repr

/-- The string `'read'`. -/
def readSegment : JsString := [114, 101, 97, 100]

/-- The string `'unread'`. -/
def unreadSegment : JsString := [117, 110, 114, 101, 97, 100]

/-- The string `'count'`. -/
def countSegment : JsString := [99, 111, 117, 110, 116]

/-- The routes of `routes/messages.js` in the order of their registration. -/
def routes : List Route :=
  [ ⟨Method.GET, [Segment.param "userId"], Handler.getConversation⟩,
    ⟨Method.POST, [], Handler.postMessage⟩,
    ⟨Method.PATCH, [Segment.literal readSegment, Segment.param "userId"], Handler.patchReadUser⟩,
    ⟨Method.GET, [Segment.literal unreadSegment, Segment.literal countSegment],
      Handler.getUnreadCount⟩,
    ⟨Method.PATCH, [Segment.literal readSegment, Segment.param "messageId"],
      Handler.patchReadMessage⟩ ]

/-- A string with its ASCII capital letters turned into small ones. -/
def asciiLower (x : JsString) : JsString :=
  x.map (fun c => if 65 ≤ c ∧ c ≤ 90 then c + 32 else c)

/-- Whether a route path matches the segments of a request path, and with what
parameter values; a parameter takes one non-empty segment, a literal is compared
without regard to letter case (the router is not `caseSensitive`). -/
def matchPath : List Segment → List JsString → Option (List (String × JsString))
  | [], [] => some []
  | Segment.literal text :: ps, x :: xs =>
    if asciiLower text = asciiLower x then matchPath ps xs else none
  | Segment.param name :: ps, x :: xs =>
    if x = [] then none else (matchPath ps xs).map (fun params => (name, x) :: params)
  | _, _ => none

/-- Express dispatch over a route list: the first route whose method and path
match takes the request (no handler here calls `next`). -/
def dispatchIn : List Route → Method → List JsString →
    Option (Handler × List (String × JsString))
  | [], _, _ => none
  | r :: rest, method, path =>
    if r.method = method then
      match matchPath r.path path with
      | some params => some (r.handler, params)
      | none => dispatchIn rest method path
    else dispatchIn rest method path

/-- A request path without its one trailing slash, if it has one (the router is
not `strict`): a last segment that is empty is dropped. -/
def dropTrailingSlash : List JsString → List JsString
  | [] => []
  | [x] => if x = [] then [] else [x]
  | x :: y :: rest => x :: dropTrailingSlash (y :: rest)

/-- Dispatch over the routes of the message router. -/
def dispatch (method : Method) (path : List JsString) :
    Option (Handler × List (String × JsString)) :=
  dispatchIn routes method (dropTrailingSlash path)

/-- The value of `req.params[name]`. -/
def paramValue (params : List (String × JsString)) (name : String) : JsString :=
  ((params.find? (fun p => p.1 = name)).map Prod.snd).getD []

/-- The result of the `auth` middleware (`middleware/auth.js`): no bearer token,
a token whose verification (or the user lookup) throws, a token that names no
user, or the user's identity (`req.user.id`). -/
inductive Auth where
  | noToken
  | invalid
  | unknownUser
  | user (id : JsString)
  deriving DecidableEq, Repr

/-- A request to the message router together with what `auth` makes of its
`Authorization` header. The remaining fields are
what the handler reads from its environment: the `_id` a new document gets, the
time, and whether each of its (at most three) `await`s resolves. -/
structure Request where
  method : Method
  path : List JsString
  auth : Auth
  body : SendBody := { receiverId := [], content := [] }
  newId : JsString := []
  now : Nat := 0
  await1 : Bool := true
  await2 : Bool := true
  await3 : Bool := true
  deriving DecidableEq, Repr

/-- The message router as mounted: dispatch, then `auth`, then the handler. A path
no route matches falls to the 404 handler of `index.js`. -/
def handleRequest (req : Request) (s : State) : HttpOutcome :=
  match dispatch req.method req.path with
  | none => { state := s, response := ⟨404, Body.error "Not Found"⟩, emitted := [], errors := [] }
  | some (handler, params) =>
    match req.auth with
    | Auth.noToken =>
      { state := s, response := ⟨401, Body.error "No token, authorization denied"⟩
        emitted := [], errors := [] }
    | Auth.invalid =>
      { state := s, response := ⟨401, Body.error "Token is not valid"⟩
        emitted := [], errors := ["Auth middleware error:"] }
    | Auth.unknownUser =>
      { state := s, response := ⟨401, Body.error "Token is not valid"⟩
        emitted := [], errors := [] }
    | Auth.user userId =>
      match handler with
      | Handler.getConversation =>
        getConversation userId (paramValue params "userId") req.now
          req.await1 req.await2 req.await3 s
      | Handler.postMessage =>
        postMessage userId req.body req.newId req.now req.await1 req.await2 s
      | Handler.patchReadUser =>
        patchReadUser userId (paramValue params "userId") req.now req.await1 s
      | Handler.getUnreadCount => getUnreadCount userId req.await1 s
      | Handler.patchReadMessage =>
        patchReadMessage userId (paramValue params "messageId") req.now req.await1 s

/-- One send request whose save resolves: the authenticated sender, the body, the
`_id` and time of the new document, and whether the `populate` calls resolve. -/
structure Send where
  userId : JsString
  body : SendBody
  newId : JsString
  now : Nat
  populateOk : Bool := true
  deriving DecidableEq, Repr

/-- The state after a sequence of send requests (`router.post('/')`), each of
which has its save resolve. -/
def postAll : List Send → State → State
  | [], s => s
  | r :: rest, s =>
    postAll rest (postMessage r.userId r.body r.newId r.now true r.populateOk s).state

/-! ## Scenario data -/

/-- The identity `u1`: the ObjectId string `000000000000000000000001`. -/
def u1 : JsString := List.replicate 23 48 ++ [49]

/-- The identity `u2`: the ObjectId string `000000000000000000000002`. -/
def u2 : JsString := List.replicate 23 48 ++ [50]

/-- The identity `u3`: the ObjectId string `000000000000000000000003`. -/
def u3 : JsString := List.replicate 23 48 ++ [51]

/-- The socket id `s1`. -/
def s1 : JsString := [115, 49]

/-- The socket id `s2`. -/
def s2 : JsString := [115, 50]

/-- The message id `m1`: the ObjectId string `aaaaaaaaaaaaaaaaaaaaaaa1`. -/
def m1 : JsString := List.replicate 23 97 ++ [49]

/-- The message id `m2`: the ObjectId string `aaaaaaaaaaaaaaaaaaaaaaa2`. -/
def m2 : JsString := List.replicate 23 97 ++ [50]

/-- The string `"abc"`, which is no ObjectId: it has neither 24 hexadecimal
digits nor 12 bytes. -/
def notAnObjectId : JsString := [97, 98, 99]

/-- The content `"hi"`. -/
def hi : JsString := [104, 105]

/-- A server with nobody online and empty collections. -/
def emptyState : State := { onlineUsers := [], messages := [], users := [] }

/-- Both `u1` (socket `s1`) and `u2` (socket `s2`) online, nothing stored. -/
def bothOnline : State :=
  { onlineUsers := [(u1, s1), (u2, s2)], messages := [], users := [] }

/-- The message `m1` from `u1` to `u2` with content `"hi"`, sent at time 1. -/
def hiMessage : Message :=
  { _id := m1, chatId := chatId u1 u2, senderId := u1, receiverId := u2, content := hi
    createdAt := 1, updatedAt := 1 }

/-- Both users online and `hiMessage` stored, unread. -/
def unreadState : State :=
  { bothOnline with messages := [hiMessage] }

/-- Both users online and `hiMessage` stored, read at time 5. -/
def readState : State :=
  { bothOnline with
    messages := [{ hiMessage with isRead := true, readAt := some 5, updatedAt := 5 }] }

/-- Two sends to `u2`, both by `u1`. -/
def sameSender : List Send :=
  [ { userId := u1, body := { receiverId := u2, content := hi }, newId := m1, now := 1 },
    { userId := u1, body := { receiverId := u2, content := hi }, newId := m2, now := 2 } ]

/-- Two sends to `u2`, one by `u1` and one by `u3`. -/
def twoSenders : List Send :=
  [ { userId := u1, body := { receiverId := u2, content := hi }, newId := m1, now := 1 },
    { userId := u3, body := { receiverId := u2, content := hi }, newId := m2, now := 2 } ]

/-! ## `chatId` -/

theorem jsStringLt_asymm : ∀ a b : JsString, jsStringLt a b = true → jsStringLt b a = false
  | [], [], h => by simp [jsStringLt] at h
  | [], _ :: _, _ => by simp [jsStringLt]
  | _ :: _, [], h => by simp [jsStringLt] at h
  | x :: xs, y :: ys, h => by
    simp only [jsStringLt] at h ⊢
    by_cases hxy : x < y
    · have hyx : ¬ y < x := Nat.lt_asymm hxy
      simp [hyx, hxy]
    · by_cases hyx : y < x
      · simp [hxy, hyx] at h
      · simp only [hxy, hyx, if_false] at h ⊢
        exact jsStringLt_asymm xs ys h

theorem jsStringLt_connex : ∀ a b : JsString,
    jsStringLt a b = false → jsStringLt b a = false → a = b
  | [], [], _, _ => rfl
  | [], _ :: _, h, _ => by simp [jsStringLt] at h
  | _ :: _, [], _, h => by simp [jsStringLt] at h
  | x :: xs, y :: ys, h, h' => by
    simp only [jsStringLt] at h h'
    by_cases hxy : x < y
    · simp [hxy] at h
    · by_cases hyx : y < x
      · simp [hyx] at h'
      · simp only [hxy, hyx, if_false] at h h'
        have hx : x = y := Nat.le_antisymm (Nat.not_lt.mp hyx) (Nat.not_lt.mp hxy)
        rw [hx, jsStringLt_connex xs ys h h']

theorem chatId_eq (a b : JsString) :
    chatId a b = if jsStringLt b a then b ++ underscore ++ a else a ++ underscore ++ b := by
  unfold chatId sort
  simp only [List.foldl, sortInsert]
  split <;> simp [join]

theorem chatId_comm (a b : JsString) : chatId a b = chatId b a := by
  rw [chatId_eq, chatId_eq]
  cases hba : jsStringLt b a <;> cases hab : jsStringLt a b
  · have := jsStringLt_connex a b hab hba
    subst this
    simp
  · simp
  · simp
  · have := jsStringLt_asymm a b hab
    simp [this] at hba

/-- C3: the conversation id `[A, B].sort().join('_')` does not depend on the order
of the two identities, and the documents built by the socket send path and by the
request send path carry that same id whichever of the two users is the sender. -/
theorem conversation_id_order_independent (A B : JsString)
    (sid sid' id id' : JsString) (now now' : Nat) (d d' : PrivateMessageData)
    (b b' : SendBody) :
    chatId A B = chatId B A ∧
    (newSocketMessage ⟨sid, A⟩ { d with receiverId := B } id now).chatId =
      (newSocketMessage ⟨sid', B⟩ { d' with receiverId := A } id' now').chatId ∧
    (newHttpMessage A { b with receiverId := B } id now).chatId =
      (newHttpMessage B { b' with receiverId := A } id' now').chatId ∧
    (newSocketMessage ⟨sid, A⟩ { d with receiverId := B } id now).chatId =
      (newHttpMessage B { b' with receiverId := A } id' now').chatId := by
  simp only [newSocketMessage, newHttpMessage]
  exact ⟨chatId_comm A B, chatId_comm A B, chatId_comm A B, chatId_comm A B⟩

/-! ## The registry -/

theorem mapGet_mapSet_self (m : OnlineUsers) (k v : JsString) :
    mapGet (mapSet m k v) k = some v := by
  induction m with
  | nil => simp [mapSet, mapGet]
  | cons p rest ih =>
    obtain ⟨k', v'⟩ := p
    by_cases h : k' = k
    · simp [mapSet, mapGet, h]
    · simp [mapSet, mapGet, h, ih]

theorem mapGet_mapDelete_self (m : OnlineUsers) (k : JsString) :
    mapGet (mapDelete m k) k = none := by
  induction m with
  | nil => simp [mapDelete, mapGet]
  | cons p rest ih =>
    obtain ⟨k', v'⟩ := p
    by_cases h : k' = k
    · simp [mapDelete, h, ih]
    · simp [mapDelete, mapGet, h, ih]

theorem broadcastUserStatus_onlineUsers (userId status : JsString) (now : Nat)
    (updateOk : Bool) (s : State) :
    (broadcastUserStatus userId status now updateOk s).state.onlineUsers = s.onlineUsers := by
  cases updateOk <;> simp [broadcastUserStatus]

/-- C4: after connection `c1` registers `U`, connection `c2` registers `U` and
`c1` disconnects, the registry held `c2` for `U` just before the disconnect and
holds no entry for `U` after it: the stale disconnect evicts the newer
connection. -/
theorem stale_disconnect_evicts_newer (U c1 c2 : JsString) (t1 t2 t3 : Nat)
    (k1 k2 k3 : Bool) (s : State) :
    mapGet (onConnection ⟨c2, U⟩ t2 k2
      (onConnection ⟨c1, U⟩ t1 k1 s).state).state.onlineUsers U = some c2 ∧
    mapGet (onDisconnect ⟨c1, U⟩ t3 k3 (onConnection ⟨c2, U⟩ t2 k2
      (onConnection ⟨c1, U⟩ t1 k1 s).state).state).state.onlineUsers U = none := by
  constructor
  · simp only [onConnection, broadcastUserStatus_onlineUsers]
    exact mapGet_mapSet_self _ _ _
  · simp only [onDisconnect, broadcastUserStatus_onlineUsers]
    exact mapGet_mapDelete_self _ _

/-! ## The socket send path -/

/-- C1 (as stated, refuted): `u1` sends `"hi"` to `u2` while both are online,
the save resolves and a `populate` call rejects: the message is stored with sender
`u1`, receiver `u2` and `isRead = false`, yet the only emission is
`messageError` to the caller, no `privateMessage` and no `messageSent`. -/
theorem private_message_stored_but_not_delivered :
    (onPrivateMessage ⟨s1, u1⟩ { receiverId := u2, content := hi } m1 1 true false
      bothOnline).state.messages = [hiMessage] ∧
    hiMessage.senderId = u1 ∧ hiMessage.receiverId = u2 ∧ hiMessage.isRead = false ∧
    mapGet bothOnline.onlineUsers u2 = some s2 ∧
    (onPrivateMessage ⟨s1, u1⟩ { receiverId := u2, content := hi } m1 1 true false
      bothOnline).emitted =
      [⟨Target.socket s1, Event.messageError "Failed to send message"⟩] := by
  decide

/-- C1 (amended): when the save and both `populate` calls of a `privateMessage`
event resolve, the new document is appended to the collection with the socket's
identity as sender, the addressed identity as receiver and `isRead = false`; the
emissions are exactly: `privateMessage` with the populated document to the socket
id the registry holds for the receiver and to the one it holds for the sender
(each only when there is such an entry), and `messageSent` with the populated
document to the calling socket. When the save resolves and a `populate` call
rejects, the document is stored all the same and the one emission is
`messageError` to the calling socket. -/
theorem private_message_delivery (socket : Socket) (data : PrivateMessageData)
    (newId : JsString) (now : Nat) (s : State) :
    (onPrivateMessage socket data newId now true true s).state =
      { s with messages := s.messages ++ [newSocketMessage socket data newId now] } ∧
    (newSocketMessage socket data newId now).senderId = socket.userId ∧
    (newSocketMessage socket data newId now).receiverId = data.receiverId ∧
    (newSocketMessage socket data newId now).isRead = false ∧
    (∀ e : Emission, e ∈ (onPrivateMessage socket data newId now true true s).emitted ↔
      (e.event = Event.privateMessage
          (populate s.users (newSocketMessage socket data newId now)) ∧
        ∃ c, e.target = Target.room c ∧
          (mapGet s.onlineUsers data.receiverId = some c ∨
            mapGet s.onlineUsers socket.userId = some c)) ∨
      e = ⟨Target.socket socket.id,
        Event.messageSent (populate s.users (newSocketMessage socket data newId now))⟩) ∧
    onPrivateMessage socket data newId now true false s =
      { state := { s with messages := s.messages ++ [newSocketMessage socket data newId now] }
        emitted := [⟨Target.socket socket.id, Event.messageError "Failed to send message"⟩]
        errors := ["Error handling private message:"] } := by
  refine ⟨by simp [onPrivateMessage], rfl, rfl, rfl, ?_, by simp [onPrivateMessage]⟩
  intro e
  obtain ⟨t, ev⟩ := e
  simp only [onPrivateMessage, if_true]
  cases hr : mapGet s.onlineUsers data.receiverId <;>
    cases hs : mapGet s.onlineUsers socket.userId <;>
    simp <;> aesop

/-- C2: when `message.save()` rejects, the handler emits `messageError` to the
calling socket and nothing else (no `privateMessage`, no `messageSent`), and the
state is as before. -/
theorem private_message_save_rejected (socket : Socket) (data : PrivateMessageData)
    (newId : JsString) (now : Nat) (populateOk : Bool) (s : State) :
    (onPrivateMessage socket data newId now false populateOk s).emitted =
      [⟨Target.socket socket.id, Event.messageError "Failed to send message"⟩] ∧
    (onPrivateMessage socket data newId now false populateOk s).state = s := by
  simp [onPrivateMessage]

/-! ## The single mark-read -/

theorem findOneAndUpdate_none (ms : List Message) (id r : JsString) (now : Nat) :
    (findOneAndUpdate ms id r now).2 = none →
      (findOneAndUpdate ms id r now).1 = ms ∧
      ∀ m ∈ ms, ¬ (m._id = id ∧ m.receiverId = r ∧ m.isRead = false) := by
  induction ms with
  | nil => intro _; simp [findOneAndUpdate]
  | cons m rest ih =>
    by_cases h : m._id = id ∧ m.receiverId = r ∧ m.isRead = false
    · simp [findOneAndUpdate, h]
    · simp only [findOneAndUpdate, h, if_false]
      intro hn
      obtain ⟨h1, h2⟩ := ih hn
      refine ⟨by rw [h1], ?_⟩
      intro m' hm'
      rcases List.mem_cons.mp hm' with rfl | hm'
      · exact h
      · exact h2 m' hm'

theorem findOneAndUpdate_some (ms : List Message) (id r : JsString) (now : Nat)
    (m' : Message) :
    (findOneAndUpdate ms id r now).2 = some m' →
      ∃ m ∈ ms, (m._id = id ∧ m.receiverId = r ∧ m.isRead = false) ∧
        m' = { m with isRead := true, readAt := some now, updatedAt := now } := by
  induction ms with
  | nil => simp [findOneAndUpdate]
  | cons m rest ih =>
    by_cases h : m._id = id ∧ m.receiverId = r ∧ m.isRead = false
    · rw [findOneAndUpdate, if_pos h]
      intro hm
      exact ⟨m, List.mem_cons_self _ _, h, (Option.some.inj hm).symm⟩
    · simp only [findOneAndUpdate, h, if_false]
      intro hs
      obtain ⟨m0, hm0, hq, he⟩ := ih hs
      exact ⟨m0, List.mem_cons_of_mem _ hm0, hq, he⟩

theorem findOneAndUpdate_some_split (ms : List Message) (id r : JsString) (now : Nat)
    (m' : Message) :
    (findOneAndUpdate ms id r now).2 = some m' →
      ∃ pre m post, ms = pre ++ m :: post ∧
        (∀ x ∈ pre, ¬ (x._id = id ∧ x.receiverId = r ∧ x.isRead = false)) ∧
        (m._id = id ∧ m.receiverId = r ∧ m.isRead = false) ∧
        m' = { m with isRead := true, readAt := some now, updatedAt := now } ∧
        (findOneAndUpdate ms id r now).1 = pre ++ m' :: post := by
  induction ms with
  | nil => simp [findOneAndUpdate]
  | cons m rest ih =>
    by_cases h : m._id = id ∧ m.receiverId = r ∧ m.isRead = false
    · rw [findOneAndUpdate, if_pos h]
      intro hm
      have he := (Option.some.inj hm).symm
      refine ⟨[], m, rest, rfl, ?_, h, he, ?_⟩
      · intro x hx
        cases hx
      · simp [he]
    · rw [findOneAndUpdate, if_neg h]
      intro hs
      obtain ⟨pre, m0, post, hsplit, hpre, hq, he, hfst⟩ := ih hs
      refine ⟨m :: pre, m0, post, by simp [hsplit], ?_, hq, he, by simp [hfst]⟩
      intro x hx
      rcases List.mem_cons.mp hx with rfl | hx
      · exact h
      · exact hpre x hx

/-- C5 (as stated, refuted): `u2` asks to mark read the message id `abc`, which
is no ObjectId and which no stored message has: the query rejects on the cast and
the handler answers 500 with `Error marking message as read`, not the 404 it
gives for a well-formed id that matches nothing. -/
theorem single_mark_read_malformed_id :
    isObjectIdString notAnObjectId = false ∧
    findById unreadState.messages notAnObjectId = none ∧
    markMessageRead isObjectIdString true u2 notAnObjectId 7 unreadState =
      { state := unreadState
        response := ⟨500, Body.message "Error marking message as read"⟩
        emitted := [], errors := ["Error marking message as read:"] } ∧
    markMessageRead isObjectIdString true u2 m2 7 unreadState =
      { state := unreadState
        response := ⟨404, Body.message "Message not found or already read"⟩
        emitted := [], errors := [] } := by
  decide

/-- C5 (amended): when the update of the single mark-read handler resolves (the
message id casts to an ObjectId and the database answers), the handler answers 200
with the message of that id, `isRead = true` and `readAt` set, if and only if the
collection holds a message with that id whose receiver is the reader and whose
`isRead` is false; on that answer the first such message, and no other, is
replaced in the collection by the one returned; otherwise the handler answers the
one 404 body, leaves the state as it was and emits nothing. When the update
rejects, as it does for a message id that does not cast, the handler answers 500,
leaves the state as it was and emits nothing. -/
theorem single_mark_read_outcome (casts : JsString → Bool) (dbOk : Bool)
    (userId messageId : JsString) (now : Nat) (s : State) :
    ((dbOk && casts messageId) = true →
      ((∃ m ∈ s.messages, m._id = messageId ∧ m.receiverId = userId ∧ m.isRead = false) ↔
        ∃ m', (markMessageRead casts dbOk userId messageId now s).response =
            ⟨200, Body.document m'⟩ ∧
          m'._id = messageId ∧ m'.receiverId = userId ∧ m'.isRead = true ∧
          m'.readAt = some now) ∧
      (∀ m', (markMessageRead casts dbOk userId messageId now s).response =
          ⟨200, Body.document m'⟩ →
        ∃ pre m post, s.messages = pre ++ m :: post ∧
          (∀ x ∈ pre, ¬ (x._id = messageId ∧ x.receiverId = userId ∧ x.isRead = false)) ∧
          (m._id = messageId ∧ m.receiverId = userId ∧ m.isRead = false) ∧
          m' = { m with isRead := true, readAt := some now, updatedAt := now } ∧
          (markMessageRead casts dbOk userId messageId now s).state =
            { s with messages := pre ++ m' :: post }) ∧
      ((¬ ∃ m ∈ s.messages, m._id = messageId ∧ m.receiverId = userId ∧ m.isRead = false) →
        markMessageRead casts dbOk userId messageId now s =
          { state := s, response := ⟨404, Body.message "Message not found or already read"⟩
            emitted := [], errors := [] })) ∧
    ((dbOk && casts messageId) = false →
      markMessageRead casts dbOk userId messageId now s =
        { state := s, response := ⟨500, Body.message "Error marking message as read"⟩
          emitted := [], errors := ["Error marking message as read:"] }) := by
  constructor
  · intro hok
    simp only [markMessageRead, hok]
    cases hr : (findOneAndUpdate s.messages messageId userId now).2 with
    | none =>
      obtain ⟨_, hno⟩ := findOneAndUpdate_none _ _ _ _ hr
      refine ⟨⟨?_, ?_⟩, ?_, ?_⟩
      · rintro ⟨m, hm, hq⟩
        exact absurd hq (hno m hm)
      · rintro ⟨m', hresp, _⟩
        simp [patchReadMessage, hr] at hresp
      · intro m' hresp
        simp [patchReadMessage, hr] at hresp
      · intro _
        simp [patchReadMessage, hr]
    | some m0 =>
      obtain ⟨pre, m, post, hsplit, hpre, hq, he, hfst⟩ :=
        findOneAndUpdate_some_split _ _ _ _ _ hr
      have hmem : m ∈ s.messages := by simp [hsplit]
      refine ⟨⟨?_, ?_⟩, ?_, ?_⟩
      · intro _
        refine ⟨m0, by simp [patchReadMessage, hr], ?_⟩
        subst he
        exact ⟨hq.1, hq.2.1, rfl, rfl⟩
      · intro _
        exact ⟨m, hmem, hq⟩
      · intro m' hresp
        have hm' : m0 = m' := by simpa [patchReadMessage, hr] using hresp
        subst hm'
        exact ⟨pre, m, post, hsplit, hpre, hq, he, by simp [patchReadMessage, hr, hfst]⟩
      · intro hnot
        exact absurd ⟨m, hmem, hq⟩ hnot
  · intro hrej
    simp [markMessageRead, hrej, patchReadMessage]

/-- C7: `u2` marks the unread `m1` read through the request handler while its
sender `u1` is in the registry under socket id `s1`: the handler answers 200
with the message read at time 7, and its one `messageRead` emission goes to the
room named `u1`, the sender's identity, not to `s1`, the socket id the
registry holds for the sender. -/
theorem single_mark_read_notifies_identity_room :
    (patchReadMessage u2 m1 7 true unreadState).response =
      ⟨200, Body.document
        { hiMessage with isRead := true, readAt := some 7, updatedAt := 7 }⟩ ∧
    mapGet unreadState.onlineUsers u1 = some s1 ∧
    (patchReadMessage u2 m1 7 true unreadState).emitted =
      [⟨Target.room u1, Event.messageRead m1 (some 7)⟩] ∧
    ⟨Target.room s1, Event.messageRead m1 (some 7)⟩ ∉
      (patchReadMessage u2 m1 7 true unreadState).emitted := by
  decide

/-! ## The `messageRead` event -/

/-- C6: `u2` sends `messageRead` for `m1`, which it already read at time 5:
the handler stores the message again with `readAt` moved to the new time 9 and
emits a second `messageRead` notification to the sender's socket. -/
theorem message_read_again_rewrites_and_notifies :
    findById readState.messages m1 =
      some { hiMessage with isRead := true, readAt := some 5, updatedAt := 5 } ∧
    (onMessageRead ⟨s2, u2⟩ m1 9 true true readState).state.messages =
      [{ hiMessage with isRead := true, readAt := some 9, updatedAt := 9 }] ∧
    (onMessageRead ⟨s2, u2⟩ m1 9 true true readState).emitted =
      [⟨Target.room s1, Event.messageRead m1 (some 9)⟩] := by
  decide

/-! ## Route dispatch -/

/-- C8: `u2`, receiver of the unread `m1`, sends `PATCH read/m1`: the first
matching route is `read/:userId`, so the bulk handler takes the request with
`m1` as the other user's identity and answers its `updated` body (here without a
count), not the message; the message stays unread. -/
theorem patch_read_message_reaches_bulk_handler :
    dispatch Method.PATCH [readSegment, m1] =
      some (Handler.patchReadUser, [("userId", m1)]) ∧
    handleRequest { method := Method.PATCH, path := [readSegment, m1], auth := Auth.user u2,
                    now := 7 } unreadState =
      { state := unreadState, response := ⟨200, Body.updated none⟩, emitted := [],
        errors := [] } ∧
    countDocuments unreadState.messages u2 = 1 := by
  decide

/-! ## The bulk mark-read -/

theorem updateMany_pointwise (ms : List Message) (sender receiver : JsString) (now : Nat) :
    List.Forall₂
      (fun m m' =>
        (m.senderId = sender ∧ m.receiverId = receiver ∧ m.isRead = false →
          m' = { m with isRead := true, readAt := some now, updatedAt := now }) ∧
        (¬ (m.senderId = sender ∧ m.receiverId = receiver ∧ m.isRead = false) → m' = m))
      ms (updateMany ms sender receiver now) := by
  induction ms with
  | nil => exact List.Forall₂.nil
  | cons m rest ih =>
    refine List.Forall₂.cons ?_ ih
    by_cases h : m.senderId = sender ∧ m.receiverId = receiver ∧ m.isRead = false
    · simp [h]
    · simp [h]

theorem updateMany_no_match (ms : List Message) (sender receiver : JsString) (now : Nat)
    (h : ∀ m ∈ ms, ¬ (m.senderId = sender ∧ m.receiverId = receiver ∧ m.isRead = false)) :
    updateMany ms sender receiver now = ms := by
  induction ms with
  | nil => rfl
  | cons m rest ih =>
    have hm := h m (List.mem_cons_self _ _)
    have hrest := ih (fun m' hm' => h m' (List.mem_cons_of_mem _ hm'))
    unfold updateMany at hrest ⊢
    simp only [List.map_cons, hm, if_false, hrest]

theorem updateMany_leaves_no_match (ms : List Message) (sender receiver : JsString)
    (now : Nat) :
    ∀ m ∈ updateMany ms sender receiver now,
      ¬ (m.senderId = sender ∧ m.receiverId = receiver ∧ m.isRead = false) := by
  intro m hm
  unfold updateMany at hm
  obtain ⟨m0, _, rfl⟩ := List.mem_map.mp hm
  by_cases h : m0.senderId = sender ∧ m0.receiverId = receiver ∧ m0.isRead = false
  · simp [h]
  · simp [h]

theorem modifiedCount_no_match (ms : List Message) (sender receiver : JsString)
    (h : ∀ m ∈ ms, ¬ (m.senderId = sender ∧ m.receiverId = receiver ∧ m.isRead = false)) :
    (updateManyResult ms sender receiver).modifiedCount = 0 := by
  unfold updateManyResult
  simp only
  rw [List.length_eq_zero, List.filter_eq_nil_iff]
  intro m hm
  simpa using h m hm

/-- C9: when its update resolves, the bulk mark-read of `reader` against `other`
turns each message with `senderId = other`, `receiverId = reader` and
`isRead = false` into the same message with `isRead = true` and `readAt` set and
leaves every other message as it is; a second invocation right after it changes
no document (`modifiedCount` 0) and leaves the state, every `readAt` included, as
the first one left it. Neither invocation reports a count: the body is
`{updated: result.nModified}`, and the result has no `nModified`, so `updated` is
`undefined` both times. -/
theorem bulk_mark_read_idempotent_reports_no_count (reader other : JsString)
    (now now' : Nat) (s : State) :
    List.Forall₂
      (fun m m' =>
        (m.senderId = other ∧ m.receiverId = reader ∧ m.isRead = false →
          m' = { m with isRead := true, readAt := some now, updatedAt := now }) ∧
        (¬ (m.senderId = other ∧ m.receiverId = reader ∧ m.isRead = false) → m' = m))
      s.messages (patchReadUser reader other now true s).state.messages ∧
    (updateManyResult s.messages other reader).modifiedCount =
      (s.messages.filter (fun m =>
        m.senderId = other ∧ m.receiverId = reader ∧ m.isRead = false)).length ∧
    (updateManyResult (patchReadUser reader other now true s).state.messages
      other reader).modifiedCount = 0 ∧
    (patchReadUser reader other now' true (patchReadUser reader other now true s).state).state =
      (patchReadUser reader other now true s).state ∧
    (patchReadUser reader other now true s).response = ⟨200, Body.updated none⟩ ∧
    (patchReadUser reader other now' true
      (patchReadUser reader other now true s).state).response = ⟨200, Body.updated none⟩ := by
  have hno := updateMany_leaves_no_match s.messages other reader now
  refine ⟨?_, ?_, ?_, ?_, ?_, ?_⟩
  · simpa [patchReadUser] using updateMany_pointwise s.messages other reader now
  · simp [updateManyResult]
  · simpa [patchReadUser] using modifiedCount_no_match _ _ _ hno
  · simp only [patchReadUser, if_true]
    rw [updateMany_no_match _ _ _ _ hno]
  · simp [patchReadUser, UpdateResult.nModified]
  · simp [patchReadUser, UpdateResult.nModified]

/-! ## The unread count -/

theorem postAll_messages (sends : List Send) (s : State) :
    (postAll sends s).messages =
      s.messages ++ sends.map (fun r => newHttpMessage r.userId r.body r.newId r.now) := by
  induction sends generalizing s with
  | nil => simp [postAll]
  | cons r rest ih =>
    rw [postAll, ih]
    cases r.populateOk <;> simp [postMessage]

theorem countDocuments_append (a b : List Message) (u : JsString) :
    countDocuments (a ++ b) u = countDocuments a u + countDocuments b u := by
  simp [countDocuments]

theorem countDocuments_new (sends : List Send) (u : JsString)
    (hr : ∀ r ∈ sends, r.body.receiverId = u) :
    countDocuments (sends.map (fun r => newHttpMessage r.userId r.body r.newId r.now)) u =
      sends.length := by
  unfold countDocuments
  rw [List.filter_map, List.length_map, List.filter_eq_self.mpr]
  intro r hmem
  simp [newHttpMessage, hr r hmem]

theorem countDocuments_updateMany (ms : List Message) (other u : JsString) (now : Nat) :
    countDocuments (updateMany ms other u now) u =
      (ms.filter (fun m =>
        m.receiverId = u ∧ m.isRead = false ∧ m.senderId ≠ other)).length := by
  unfold countDocuments updateMany
  rw [List.filter_map, List.length_map]
  congr 1
  apply List.filter_congr
  intro m _
  by_cases h1 : m.senderId = other <;> by_cases h2 : m.receiverId = u <;>
    cases h3 : m.isRead <;> simp [h1, h2, h3]

theorem countDocuments_zero (ms : List Message) (u : JsString)
    (h0 : countDocuments ms u = 0) (other : JsString) :
    (ms.filter (fun m =>
      m.receiverId = u ∧ m.isRead = false ∧ m.senderId ≠ other)).length = 0 := by
  unfold countDocuments at h0
  rw [List.length_eq_zero, List.filter_eq_nil_iff] at h0 ⊢
  intro m hm hq
  apply h0 m hm
  simp only [decide_eq_true_eq] at hq ⊢
  exact ⟨hq.1, hq.2.1⟩

theorem unread_new_from_others (sends : List Send) (u other : JsString)
    (hr : ∀ r ∈ sends, r.body.receiverId = u) :
    ((sends.map (fun r => newHttpMessage r.userId r.body r.newId r.now)).filter (fun m =>
      m.receiverId = u ∧ m.isRead = false ∧ m.senderId ≠ other)).length =
      (sends.filter (fun r => r.userId ≠ other)).length := by
  rw [List.filter_map, List.length_map]
  congr 1
  apply List.filter_congr
  intro r hmem
  simp [newHttpMessage, hr r hmem]

/-- C10 (as stated, refuted): `u1` and `u3` each send one message to `u2`;
the unread count of `u2` is 2, and after the bulk mark-read of `u2` against
`u1` it is 1, not 0. -/
theorem unread_count_after_bulk_read_two_senders :
    (getUnreadCount u2 true (postAll twoSenders emptyState)).response =
      ⟨200, Body.count 2⟩ ∧
    (getUnreadCount u2 true
      (patchReadUser u2 u1 9 true (postAll twoSenders emptyState)).state).response =
      ⟨200, Body.count 1⟩ := by
  decide

/-- C10 (amended): starting from a state without unread messages for `u`, after
`N` send requests addressed to `u` the unread count of `u` is `N`; after the bulk
mark-read of `u` against `other` it is the number of those messages that were not
sent by `other`, hence 0 when all `N` were sent by `other`. -/
theorem unread_count_after_sends (u other : JsString) (sends : List Send) (now : Nat)
    (s : State) (h0 : countDocuments s.messages u = 0)
    (hr : ∀ r ∈ sends, r.body.receiverId = u) :
    (getUnreadCount u true (postAll sends s)).response =
      ⟨200, Body.count sends.length⟩ ∧
    (getUnreadCount u true (patchReadUser u other now true (postAll sends s)).state).response =
      ⟨200, Body.count (sends.filter (fun r => r.userId ≠ other)).length⟩ ∧
    ((∀ r ∈ sends, r.userId = other) →
      (getUnreadCount u true
        (patchReadUser u other now true (postAll sends s)).state).response =
        ⟨200, Body.count 0⟩) := by
  have hcount : countDocuments (postAll sends s).messages u = sends.length := by
    rw [postAll_messages, countDocuments_append, h0, countDocuments_new sends u hr]
    simp
  have hafter : countDocuments (updateMany (postAll sends s).messages other u now) u =
      (sends.filter (fun r => r.userId ≠ other)).length := by
    rw [countDocuments_updateMany, postAll_messages, List.filter_append, List.length_append,
      countDocuments_zero s.messages u h0 other, unread_new_from_others sends u other hr]
    simp
  refine ⟨?_, ?_, ?_⟩
  · simp [getUnreadCount, hcount]
  · simp [getUnreadCount, patchReadUser, hafter]
  · intro hs
    have hnone : (sends.filter (fun r => r.userId ≠ other)).length = 0 := by
      rw [List.length_eq_zero, List.filter_eq_nil_iff]
      intro r hmem
      simp [hs r hmem]
    simp only [getUnreadCount, patchReadUser, if_true, hafter, hnone]

/-- The amended C10 at two messages from `u1` to `u2` in an empty store: the
count is 2 after the sends and 0 after the bulk mark-read against `u1`. -/
theorem unread_count_after_sends_witness :
    countDocuments emptyState.messages u2 = 0 ∧
    (∀ r ∈ sameSender, r.body.receiverId = u2) ∧
    (∀ r ∈ sameSender, r.userId = u1) ∧
    (getUnreadCount u2 true (postAll sameSender emptyState)).response =
      ⟨200, Body.count 2⟩ ∧
    (getUnreadCount u2 true
      (patchReadUser u2 u1 9 true (postAll sameSender emptyState)).state).response =
      ⟨200, Body.count 0⟩ :=
  have h0 : countDocuments emptyState.messages u2 = 0 := by decide
  have hr : ∀ r ∈ sameSender, r.body.receiverId = u2 := by decide
  have hs : ∀ r ∈ sameSender, r.userId = u1 := by decide
  ⟨h0, hr, hs, (unread_count_after_sends u2 u1 sameSender 9 emptyState h0 hr).1,
    (unread_count_after_sends u2 u1 sameSender 9 emptyState h0 hr).2.2 hs⟩

/-! ## Presence announcements -/

/-- C11 (as stated, refuted): `u1` is announced `online` while both users are
connected and the update of the user record rejects: the failure is logged, the
state is as before, and no `userStatus` event is emitted, to all clients or to
anyone. -/
theorem status_update_rejected_suppresses_broadcast :
    (broadcastUserStatus u1 online 1 false bothOnline).errors =
      ["Error broadcasting user status:"] ∧
    (broadcastUserStatus u1 online 1 false bothOnline).state = bothOnline ∧
    (broadcastUserStatus u1 online 1 false bothOnline).emitted = [] ∧
    ⟨Target.all, Event.userStatus u1 online⟩ ∉
      (broadcastUserStatus u1 online 1 false bothOnline).emitted := by
  decide

/-- C11 (amended): for every announcement `broadcastUserStatus(userId, status)`
whose update of the user record rejects, the failure is logged, the state is left
as it was and nothing is emitted, so the `userStatus` notification is not
broadcast; the announcements the server makes on connection and on disconnect
then emit no `userStatus` either. When the update resolves, `userStatus` with
that identity and status is emitted once, to all clients. -/
theorem status_broadcast_follows_update (userId status : JsString) (now : Nat)
    (socket : Socket) (s : State) :
    broadcastUserStatus userId status now false s =
      { state := s, emitted := [], errors := ["Error broadcasting user status:"] } ∧
    (onConnection socket now false s).emitted =
      [⟨Target.socket socket.id,
        Event.onlineUsers (mapKeys (mapSet s.onlineUsers socket.userId socket.id))⟩] ∧
    (onDisconnect socket now false s).emitted = [] ∧
    (broadcastUserStatus userId status now true s).emitted =
      [⟨Target.all, Event.userStatus userId status⟩] ∧
    (broadcastUserStatus userId status now true s).errors = [] := by
  simp [broadcastUserStatus, onConnection, onDisconnect]

end ChatApp
